import Mathlib

/-!
Verification development for the VoiceMirror backend (backend/server.py).

The backend is a FastAPI application over MongoDB.  We shallowly embed the
request handlers as pure Lean functions over an explicit database state:

* MongoDB collections become Lean lists kept in insertion order;
  `find_one` becomes `List.find?` and `update_one` becomes `updateFirst`
  (update the first matching document, returning the matched count).
* Each handler takes the database plus the request data and returns the
  HTTP outcome together with the new database state.  Generated values
  (uuid4 ids, the current time, results of external service calls) are
  passed in as parameters, since the handlers treat them as opaque.
* JWT tokens are modelled as records carrying the embedded claims and the
  signing secret: `jwt.encode` packages the claims with the secret and
  `jwt.decode` succeeds exactly when the secret matches and the token is
  unexpired, which is the contract of the library for well-formed use.
* bcrypt hashing is modelled by a wrapper record: `verify_password p h`
  holds exactly when `h` was produced by hashing `p` (the library contract,
  ignoring hash collisions).
* Handlers that dispatch a blocking external speech-service call also
  return a Boolean flag recording whether the external call was dispatched,
  so that claims of the form "no external call is made" are statable.
-/

namespace VoiceMirror

deriving instance DecidableEq for Except

/-- An HTTP error: `HTTPException(status_code, detail)`. -/
structure HTTPError where
  statusCode : Nat
  detail : String
deriving DecidableEq, Repr

/-- A bcrypt password hash.  `hash_password` wraps the plaintext; this models
the library contract that verification succeeds exactly against the hashed
plaintext. -/
structure PwHash where
  hashedOf : String
deriving DecidableEq, Repr

/-- `hash_password` from server.py. -/
def hash_password (password : String) : PwHash := ⟨password⟩

/-- `verify_password` from server.py: bcrypt verification contract. -/
def verify_password (plain : String) (h : PwHash) : Bool :=
  h.hashedOf == plain

/-- The process-wide JWT signing secret (default value from server.py). -/
def JWT_SECRET_KEY : String := "voice-clone-secret-key-2024"

/-- Token validity window in hours, from server.py. -/
def JWT_EXPIRATION_HOURS : Nat := 24

/-- A signed JWT: the claims (`sub`, `exp`) together with the secret the
token was signed with. -/
structure Token where
  sub : Option String
  exp : Nat
  secret : String
deriving DecidableEq, Repr

/-- `create_access_token(data={"sub": sub})` from server.py: signs the claims
with the process secret and an absolute expiry `now + 24h`. -/
def create_access_token (sub : String) (now : Nat) : Token :=
  { sub := some sub, exp := now + JWT_EXPIRATION_HOURS * 3600, secret := JWT_SECRET_KEY }

/-- `jwt.decode`: succeeds with the claims iff the signature verifies under
the given secret and the token is unexpired; otherwise raises `PyJWTError`
(modelled as `none`). -/
def jwt_decode (t : Token) (secret : String) (now : Nat) : Option (Option String) :=
  if t.secret = secret ∧ now < t.exp then some t.sub else none

/-- A value stored in an opaque JSON payload (`dict` in server.py). -/
inductive JsonVal where
  | str (s : String)
  | num (n : Nat)
deriving DecidableEq, Repr

/-- An opaque JSON object, as an association list. -/
abbrev JsonObj := List (String × JsonVal)

/-- A user document as stored in the `users` collection. -/
structure UserDoc where
  id : String
  username : String
  email : String
  password_hash : PwHash
  created_at : Nat
  voice_profile_id : Option String
deriving DecidableEq, Repr

/-- A voice-profile document as stored in the `voice_profiles` collection. -/
structure ProfileDoc where
  id : String
  user_id : String
  name : String
  voice_id : Option String
  voice_data : JsonObj
  samples_count : Nat
  training_status : String
  created_at : Nat
  is_active : Bool
deriving DecidableEq, Repr

/-- A call document as stored in the `calls` collection. -/
structure CallDoc where
  id : String
  caller_id : String
  receiver_id : Option String
  call_type : String
  status : String
  room_id : String
  created_at : Nat
  ended_at : Option Nat
  voice_settings : Option JsonObj
deriving DecidableEq, Repr

/-- The `TTSResponse` model of server.py, persisted into `tts_generations`. -/
structure TTSResponse where
  audio_url : String
  text : String
  voice_id : String
  generation_id : String
  created_at : Nat
deriving DecidableEq, Repr

/-- The MongoDB database: one list per collection, in insertion order. -/
structure DB where
  users : List UserDoc
  voice_profiles : List ProfileDoc
  calls : List CallDoc
  tts_generations : List TTSResponse
deriving DecidableEq, Repr

/-- MongoDB `update_one`: update the first document matching `p` (if any)
with `f`, returning the new collection and the matched count. -/
def updateFirst (p : α → Bool) (f : α → α) : List α → List α × Nat
  | [] => ([], 0)
  | x :: xs =>
    if p x then (f x :: xs, 1)
    else
      let r := updateFirst p f xs
      (x :: r.1, r.2)

/-- The `UserResponse` model returned by register and login. -/
structure UserResponse where
  id : String
  username : String
  email : String
  voice_profile_id : Option String
  token : Token
deriving DecidableEq, Repr

/-- `POST /auth/register` from server.py.  `newId` is the generated uuid4 and
`now` the current time.  Returns the HTTP outcome and the new database. -/
def register (db : DB) (username email password : String) (newId : String)
    (now : Nat) : Except HTTPError UserResponse × DB :=
  match db.users.find? (fun u => u.email == email) with
  | some _ => (Except.error ⟨400, "Email already registered"⟩, db)
  | none =>
    let user : UserDoc :=
      { id := newId, username := username, email := email
        password_hash := hash_password password
        created_at := now, voice_profile_id := none }
    let token := create_access_token newId now
    (Except.ok
      { id := newId, username := username, email := email
        voice_profile_id := none, token := token },
     { db with users := db.users ++ [user] })

/-- `POST /auth/login` from server.py. -/
def login (db : DB) (email password : String) (now : Nat) :
    Except HTTPError UserResponse :=
  match db.users.find? (fun u => u.email == email) with
  | none => Except.error ⟨401, "Invalid email or password"⟩
  | some u =>
    if verify_password password u.password_hash then
      Except.ok
        { id := u.id, username := u.username, email := u.email
          voice_profile_id := u.voice_profile_id
          token := create_access_token u.id now }
    else Except.error ⟨401, "Invalid email or password"⟩

/-- `get_current_user` from server.py: decode the bearer token, extract the
`sub` claim, and look the user up in the `users` collection. -/
def get_current_user (db : DB) (tok : Token) (now : Nat) :
    Except HTTPError UserDoc :=
  match jwt_decode tok JWT_SECRET_KEY now with
  | none => Except.error ⟨401, "Invalid token"⟩
  | some none => Except.error ⟨401, "Invalid token"⟩
  | some (some uid) =>
    match db.users.find? (fun u => u.id == uid) with
    | none => Except.error ⟨404, "User not found"⟩
    | some u => Except.ok u

/-- The default voice configuration used by `create_voice_profile` when the
request carries no (truthy) `voice_data`. -/
def defaultVoiceData : JsonObj :=
  [("model", JsonVal.str "nova"),
   ("voice", JsonVal.str "alloy"),
   ("response_format", JsonVal.str "pcm16"),
   ("instructions",
    JsonVal.str "You are a helpful assistant that speaks clearly and naturally.")]

/-- Python truthiness of `profile_data.voice_data or {...}`: a missing/null
payload, and also an empty dict, fall back to the default configuration. -/
def resolveVoiceData (vd : Option JsonObj) : JsonObj :=
  match vd with
  | none => defaultVoiceData
  | some d => if d = [] then defaultVoiceData else d

/-- `POST /voice-profiles` (`create_voice_profile`) from server.py: insert a
new profile for the authenticated user, then point the user record at it.
`uid` is the authenticated user id, `newId` the generated uuid4. -/
def create_voice_profile (db : DB) (uid : String) (pname : String)
    (voice_data : Option JsonObj) (newId : String) (now : Nat) :
    ProfileDoc × DB :=
  let profile : ProfileDoc :=
    { id := newId, user_id := uid, name := pname, voice_id := none
      voice_data := resolveVoiceData voice_data
      samples_count := 0, training_status := "untrained"
      created_at := now, is_active := true }
  let db1 := { db with voice_profiles := db.voice_profiles ++ [profile] }
  let r := updateFirst (fun u => u.id == uid)
    (fun u => { u with voice_profile_id := some newId }) db1.users
  (profile, { db1 with users := r.1 })

/-- `GET /voice-profiles` (`get_voice_profiles`) from server.py: all profiles
owned by the authenticated user. -/
def get_voice_profiles (db : DB) (uid : String) : List ProfileDoc :=
  db.voice_profiles.filter (fun p => p.user_id == uid)

/-- `POST /calls` (`create_call`) from server.py: create a waiting call,
resolving the receiver email to a user id when possible. -/
def create_call (db : DB) (uid : String) (receiver_email : Option String)
    (call_type : String) (voice_settings : Option JsonObj)
    (newId room_id : String) (now : Nat) : CallDoc × DB :=
  let base : CallDoc :=
    { id := newId, caller_id := uid, receiver_id := none
      call_type := call_type, status := "waiting", room_id := room_id
      created_at := now, ended_at := none, voice_settings := voice_settings }
  let call :=
    match receiver_email with
    | none => base
    | some em =>
      match db.users.find? (fun u => u.email == em) with
      | some receiver => { base with receiver_id := some receiver.id }
      | none => base
  (call, { db with calls := db.calls ++ [call] })

/-- The Mongo filter shared by join and end:
`id = call_id` and (`caller_id = uid` or `receiver_id = uid`). -/
def callFilter (call_id uid : String) (c : CallDoc) : Bool :=
  c.id == call_id && (c.caller_id == uid || c.receiver_id == some uid)

/-- `PATCH /calls/{call_id}/join` (`join_call`) from server.py: set the status
of the first call matching id + participant to active; 404 when the filter
matches nothing.  The filter does not mention the current status. -/
def join_call (db : DB) (call_id uid : String) : Except HTTPError String × DB :=
  let r := updateFirst (callFilter call_id uid)
    (fun c => { c with status := "active" }) db.calls
  if r.2 = 0 then (Except.error ⟨404, "Call not found"⟩, { db with calls := r.1 })
  else (Except.ok "joined", { db with calls := r.1 })

/-- `PATCH /calls/{call_id}/end` (`end_call`) from server.py: set status to
ended and stamp `ended_at` on the first call matching id + participant; 404
when the filter matches nothing.  The filter does not mention the current
status. -/
def end_call (db : DB) (call_id uid : String) (now : Nat) :
    Except HTTPError String × DB :=
  let r := updateFirst (callFilter call_id uid)
    (fun c => { c with status := "ended", ended_at := some now }) db.calls
  if r.2 = 0 then (Except.error ⟨404, "Call not found"⟩, { db with calls := r.1 })
  else (Except.ok "ended", { db with calls := r.1 })

/-- An uploaded multipart file as seen by `clone_voice`. -/
structure UploadFile where
  filename : String
  content_type : Option String
  content : String
deriving DecidableEq, Repr

/-- Whether a sample passes the validation
`file.content_type and file.content_type.startswith("audio/")`.  The
startswith check is modelled on the underlying character lists, which is
equivalent and lets proofs evaluate it. -/
def isAudioFile (f : UploadFile) : Bool :=
  match f.content_type with
  | none => false
  | some ct => List.isPrefixOf ("audio/").data ct.data

/-- The first sample failing validation, in upload order: the loop in
`clone_voice` raises on the first non-audio file. -/
def firstInvalidFile : List UploadFile → Option UploadFile
  | [] => none
  | f :: fs => if isAudioFile f then firstInvalidFile fs else some f

/-- The `VoiceCloneResponse` model of server.py. -/
structure VoiceCloneResponse where
  voice_id : String
  name : String
  status : String
  message : String
deriving DecidableEq, Repr

/-- `POST /voices/clone` (`clone_voice`) from server.py.  `available` is the
process-wide `ELEVENLABS_AVAILABLE` flag; `extVoiceId` the voice id the
external clone call would return; `newProfileId` the generated uuid4.  The
third component records whether the external clone call was dispatched.

The body of the handler runs inside `try: ... except Exception`, and
`HTTPException` is an `Exception`: the 400 raised by sample validation is
caught by the blanket handler and re-raised as
`HTTPException(500, "Error cloning voice: " + str(e))`, where `str` of a
starlette `HTTPException` renders as `"400: <detail>"`. -/
def clone_voice (db : DB) (available : Bool) (uid : String)
    (voice_name descr : String) (files : List UploadFile)
    (extVoiceId newProfileId : String) (now : Nat) :
    Except HTTPError VoiceCloneResponse × DB × Bool :=
  if available = false then
    (Except.error ⟨503, "ElevenLabs service not available"⟩, db, false)
  else
    match firstInvalidFile files with
    | some f =>
      (Except.error
        ⟨500, "Error cloning voice: 400: Invalid file type: " ++ f.filename⟩,
       db, false)
    | none =>
      let profile : ProfileDoc :=
        { id := newProfileId, user_id := uid, name := voice_name
          voice_id := some extVoiceId
          voice_data :=
            [("description", JsonVal.str descr),
             ("elevenlabs_voice_id", JsonVal.str extVoiceId),
             ("samples_count", JsonVal.num files.length)]
          samples_count := files.length, training_status := "ready"
          created_at := now, is_active := true }
      let db1 := { db with voice_profiles := db.voice_profiles ++ [profile] }
      let r := updateFirst (fun u => u.id == uid)
        (fun u => { u with voice_profile_id := some newProfileId }) db1.users
      (Except.ok
        { voice_id := extVoiceId, name := voice_name
          status := "ready", message := "Voice cloned successfully" },
       { db1 with users := r.1 }, true)

/-- The `TTSRequest` model of server.py.  The three style parameters carry
pydantic bounds `ge=0.0, le=1.0`; values are modelled as rationals. -/
structure TTSRequest where
  text : String
  voice_id : String
  stability : ℚ
  similarity_boost : ℚ
  style : ℚ
  use_speaker_boost : Bool
deriving DecidableEq, Repr

/-- The pydantic field validation of `TTSRequest`: every bounded field lies
in [0, 1].  Requests failing this are rejected with a 422 validation error
before the handler body runs. -/
def ttsRequestValid (r : TTSRequest) : Prop :=
  0 ≤ r.stability ∧ r.stability ≤ 1 ∧
  0 ≤ r.similarity_boost ∧ r.similarity_boost ≤ 1 ∧
  0 ≤ r.style ∧ r.style ≤ 1

instance (r : TTSRequest) : Decidable (ttsRequestValid r) := by
  unfold ttsRequestValid; infer_instance

/-- `POST /tts/generate` (`generate_tts`) from server.py, including the
pydantic request validation that runs before the handler body.  `audioB64`
is the base64 encoding of the audio the external call would stream back;
`genId` the generated uuid4.  The third component records whether the
external speech call was dispatched. -/
def generate_tts (db : DB) (available : Bool) (r : TTSRequest)
    (audioB64 : String) (genId : String) (now : Nat) :
    Except HTTPError TTSResponse × DB × Bool :=
  if ttsRequestValid r then
    if available = false then
      (Except.error ⟨503, "ElevenLabs service not available"⟩, db, false)
    else
      let resp : TTSResponse :=
        { audio_url := "data:audio/mpeg;base64," ++ audioB64
          text := r.text, voice_id := r.voice_id
          generation_id := genId, created_at := now }
      (Except.ok resp,
       { db with tts_generations := db.tts_generations ++ [resp] }, true)
  else
    (Except.error ⟨422, "Input should be in the range 0.0 to 1.0"⟩, db, false)

/-! ## Example data used by witnesses and counterexamples -/

/-- A password hash for the example user. -/
def exHash : PwHash := hash_password "hunter2"

/-- An example registered user. -/
def exAlice : UserDoc :=
  { id := "alice-id", username := "alice", email := "alice@example.com"
    password_hash := exHash, created_at := 0, voice_profile_id := none }

/-- A second example registered user. -/
def exBob : UserDoc :=
  { id := "bob-id", username := "bob", email := "bob@example.com"
    password_hash := hash_password "bobpw", created_at := 0
    voice_profile_id := none }

/-- An example call between alice (caller) and bob (receiver) that has
already been ended at time 50. -/
def exEndedCall : CallDoc :=
  { id := "call-1", caller_id := "alice-id", receiver_id := some "bob-id"
    call_type := "voice_clone", status := "ended", room_id := "room-1"
    created_at := 10, ended_at := some 50, voice_settings := none }

/-- An example database: two users and one already-ended call. -/
def exDB : DB :=
  { users := [exAlice, exBob], voice_profiles := [], calls := [exEndedCall]
    tts_generations := [] }

/-- An example audio sample upload. -/
def exGoodFile1 : UploadFile :=
  { filename := "sample1.wav", content_type := some "audio/wav"
    content := "AAA" }

/-- An example non-audio upload (text content type). -/
def exBadFile : UploadFile :=
  { filename := "sample2.txt", content_type := some "text/plain"
    content := "BBB" }

/-- A second example audio sample upload. -/
def exGoodFile2 : UploadFile :=
  { filename := "sample3.mp3", content_type := some "audio/mpeg"
    content := "CCC" }

/-- Three uploaded samples of which the second is not audio. -/
def exFiles : List UploadFile := [exGoodFile1, exBadFile, exGoodFile2]

/-- A TTS request with stability 1.5, outside the allowed [0, 1] range. -/
def exBadTTSRequest : TTSRequest :=
  { text := "hello", voice_id := "v1", stability := 3 / 2
    similarity_boost := 3 / 4, style := 0, use_speaker_boost := true }

/-! ## Helper lemmas about `List.find?` and `updateFirst` -/

/-- A sample returned by `firstInvalidFile` is indeed one of the uploaded
samples and fails the audio content-type validation. -/
theorem firstInvalidFile_mem_invalid {files : List UploadFile}
    {f : UploadFile} (h : firstInvalidFile files = some f) :
    f ∈ files ∧ isAudioFile f = false := by
  induction files with
  | nil => exact Option.noConfusion h
  | cons g gs ih =>
    by_cases hg : isAudioFile g = true
    · rw [firstInvalidFile, if_pos hg] at h
      obtain ⟨hmem, hbad⟩ := ih h
      exact ⟨List.mem_cons_of_mem g hmem, hbad⟩
    · rw [firstInvalidFile, if_neg hg, Option.some.injEq] at h
      subst h
      exact ⟨List.mem_cons_self g gs, by simpa using hg⟩

theorem find?_append_of_none {α} {p : α → Bool} {l1 l2 : List α}
    (h : l1.find? p = none) : (l1 ++ l2).find? p = l2.find? p := by
  induction l1 with
  | nil => rfl
  | cons x xs ih =>
    cases hp : p x with
    | true => simp [List.find?_cons, hp] at h
    | false =>
      simp only [List.find?_cons, hp] at h
      simpa only [List.cons_append, List.find?_cons, hp] using ih h

theorem updateFirst_of_find?_none {α} {p : α → Bool} {f : α → α} {l : List α}
    (h : l.find? p = none) : updateFirst p f l = (l, 0) := by
  induction l with
  | nil => rfl
  | cons x xs ih =>
    cases hp : p x with
    | true => simp [List.find?_cons, hp] at h
    | false =>
      simp only [List.find?_cons, hp] at h
      simp [updateFirst, hp, ih h]

theorem updateFirst_matched_of_find?_some {α} {p : α → Bool} {f : α → α}
    {l : List α} {a : α} (h : l.find? p = some a) :
    (updateFirst p f l).2 = 1 := by
  induction l with
  | nil => simp [List.find?] at h
  | cons x xs ih =>
    cases hp : p x with
    | true => simp [updateFirst, hp]
    | false =>
      simp only [List.find?_cons, hp] at h
      simp [updateFirst, hp, ih h]

theorem find?_updateFirst {α} {p : α → Bool} {f : α → α} {l : List α}
    (hpf : ∀ x, p (f x) = p x) :
    ((updateFirst p f l).1).find? p = (l.find? p).map f := by
  induction l with
  | nil => rfl
  | cons x xs ih =>
    cases hp : p x with
    | true =>
      simp [updateFirst, hp, List.find?_cons, hpf x]
    | false =>
      simp [updateFirst, hp, List.find?_cons, ih]

/-! ## Claim theorems -/

/-- C6: for every pair of registration requests with the same email, when the
first succeeds, the second fails with the 400 Conflict error
"Email already registered" regardless of the username or password supplied,
and the database is left exactly as it was after the first registration (no
second identity record is created). -/
theorem register_duplicate_email_conflict
    (db db1 : DB) (un1 email pw1 id1 : String) (t1 : Nat) (r1 : UserResponse)
    (h1 : register db un1 email pw1 id1 t1 = (Except.ok r1, db1))
    (un2 pw2 id2 : String) (t2 : Nat) :
    register db1 un2 email pw2 id2 t2 =
      (Except.error ⟨400, "Email already registered"⟩, db1) := by
  cases hfind : db.users.find? (fun u => u.email == email) with
  | some u =>
    rw [register, hfind] at h1
    simp at h1
  | none =>
    rw [register, hfind, Prod.mk.injEq] at h1
    have husers : db1.users = db.users ++
        [{ id := id1, username := un1, email := email
           password_hash := hash_password pw1
           created_at := t1, voice_profile_id := none }] :=
      (congrArg DB.users h1.2).symm
    have hfind2 : db1.users.find? (fun u => u.email == email) =
        some { id := id1, username := un1, email := email
               password_hash := hash_password pw1
               created_at := t1, voice_profile_id := none } := by
      rw [husers, find?_append_of_none hfind]
      simp [List.find?_cons]
    rw [register, hfind2]

/-- C6 witness: a concrete duplicate registration fails with the Conflict
error and leaves the database unchanged. -/
theorem register_duplicate_email_conflict_witness :
    register (register exDB "carol" "carol@example.com" "pw1" "carol-id" 100).2
        "carol2" "carol@example.com" "pw2" "carol-id-2" 200 =
      (Except.error ⟨400, "Email already registered"⟩,
       (register exDB "carol" "carol@example.com" "pw1" "carol-id" 100).2) := by
  exact register_duplicate_email_conflict exDB _ "carol" "carol@example.com"
    "pw1" "carol-id" 100 _ rfl "carol2" "pw2" "carol-id-2" 200

/-- C7: login succeeds if and only if a user with the supplied email exists
and the stored password hash verifies against the supplied password; every
failure (unknown email or wrong password) is the same 401 error. -/
theorem login_succeeds_iff_password_verifies
    (db : DB) (email pw : String) (now : Nat) :
    ((∃ r, login db email pw now = Except.ok r) ↔
      (∃ u, db.users.find? (fun x => x.email == email) = some u ∧
        verify_password pw u.password_hash = true)) ∧
    (∀ e, login db email pw now = Except.error e →
      e = ⟨401, "Invalid email or password"⟩) := by
  cases hfind : db.users.find? (fun x => x.email == email) with
  | none =>
    refine ⟨⟨?_, ?_⟩, ?_⟩
    · rintro ⟨r, hr⟩
      simp [login, hfind] at hr
    · rintro ⟨u, hu, -⟩
      exact Option.noConfusion hu
    · intro e he
      rw [login, hfind, Except.error.injEq] at he
      exact he.symm
  | some u =>
    by_cases hv : verify_password pw u.password_hash = true
    · refine ⟨⟨?_, ?_⟩, ?_⟩
      · intro _
        exact ⟨u, rfl, hv⟩
      · intro _
        exact ⟨{ id := u.id, username := u.username, email := u.email
                 voice_profile_id := u.voice_profile_id
                 token := create_access_token u.id now },
               by simp [login, hfind, hv]⟩
      · intro e he
        simp [login, hfind, hv] at he
    · refine ⟨⟨?_, ?_⟩, ?_⟩
      · rintro ⟨r, hr⟩
        simp [login, hfind, hv] at hr
      · rintro ⟨v, hv2, hverif⟩
        rw [Option.some.injEq] at hv2
        exact absurd (hv2 ▸ hverif) hv
      · intro e he
        simp only [login, hfind] at he
        rw [if_neg hv, Except.error.injEq] at he
        exact he.symm

/-- C7 witness: with the example database, login with the right password
succeeds, and login with a wrong password yields the 401 error. -/
theorem login_succeeds_iff_password_verifies_witness :
    (∃ r, login exDB "alice@example.com" "hunter2" 0 = Except.ok r) ∧
    (∀ e, login exDB "alice@example.com" "wrong" 0 = Except.error e →
      e = ⟨401, "Invalid email or password"⟩) := by
  constructor
  · exact (login_succeeds_iff_password_verifies exDB "alice@example.com"
      "hunter2" 0).1.mpr ⟨exAlice, by decide, by decide⟩
  · exact (login_succeeds_iff_password_verifies exDB "alice@example.com"
      "wrong" 0).2

/-- C5: for every successful registration (fresh email, fresh uuid), decoding
the token returned in the registration response with `get_current_user`
succeeds, before expiry, and resolves to exactly the newly created identity
id. -/
theorem register_token_roundtrip
    (db : DB) (un email pw newId : String) (now now2 : Nat)
    (hnew : db.users.find? (fun u => u.email == email) = none)
    (hfresh : db.users.find? (fun u => u.id == newId) = none)
    (hexp : now2 < now + JWT_EXPIRATION_HOURS * 3600) :
    ∃ resp db2,
      register db un email pw newId now = (Except.ok resp, db2) ∧
      ∃ u, get_current_user db2 resp.token now2 = Except.ok u ∧
        u.id = newId := by
  refine ⟨{ id := newId, username := un, email := email
            voice_profile_id := none
            token := create_access_token newId now },
          { db with users := db.users ++
            [{ id := newId, username := un, email := email
               password_hash := hash_password pw
               created_at := now, voice_profile_id := none }] },
          ?_, ?_⟩
  · rw [register, hnew]
  · refine ⟨{ id := newId, username := un, email := email
              password_hash := hash_password pw
              created_at := now, voice_profile_id := none }, ?_, rfl⟩
    have hdec : jwt_decode (create_access_token newId now) JWT_SECRET_KEY now2
        = some (some newId) := by
      simp [jwt_decode, create_access_token, hexp]
    simp [get_current_user, hdec, hfresh]

/-- C5 witness: a concrete registration whose returned token resolves back to
the created identity id. -/
theorem register_token_roundtrip_witness :
    ∃ resp db2,
      register exDB "carol" "carol@example.com" "pw" "carol-id" 100 =
        (Except.ok resp, db2) ∧
      ∃ u, get_current_user db2 resp.token 200 = Except.ok u ∧
        u.id = "carol-id" :=
  register_token_roundtrip exDB "carol" "carol@example.com" "pw" "carol-id"
    100 200 (by decide) (by decide) (by decide)

/-- C9: whenever no call matches both the requested id and the requester as
participant — which covers both a nonexistent session id and an existing
session whose caller and resolved receiver are different from the requester —
Join and End return the one and the same observable outcome: error 404 with
detail "Call not found", and the database is unchanged.  The two failure
cases are therefore indistinguishable at the interface. -/
theorem join_end_auth_indistinguishable_from_missing
    (db : DB) (call_id uid : String) (now : Nat)
    (h : db.calls.find? (callFilter call_id uid) = none) :
    join_call db call_id uid = (Except.error ⟨404, "Call not found"⟩, db) ∧
    end_call db call_id uid now =
      (Except.error ⟨404, "Call not found"⟩, db) := by
  have h1 := updateFirst_of_find?_none
    (f := fun c => { c with status := "active" }) h
  have h2 := updateFirst_of_find?_none
    (f := fun c => { c with status := "ended", ended_at := some now }) h
  constructor
  · rw [join_call, h1]
    rfl
  · rw [end_call, h2]
    rfl

/-- C9 witness: an existing session (alice and bob) addressed by an outside
requester mallory, and a nonexistent session id addressed by alice, produce
literally the same error and leave the database unchanged, for both Join and
End. -/
theorem join_end_auth_indistinguishable_witness :
    join_call exDB "call-1" "mallory-id" =
      (Except.error ⟨404, "Call not found"⟩, exDB) ∧
    join_call exDB "no-such-call" "alice-id" =
      (Except.error ⟨404, "Call not found"⟩, exDB) ∧
    end_call exDB "call-1" "mallory-id" 77 =
      (Except.error ⟨404, "Call not found"⟩, exDB) ∧
    end_call exDB "no-such-call" "alice-id" 77 =
      (Except.error ⟨404, "Call not found"⟩, exDB) :=
  ⟨(join_end_auth_indistinguishable_from_missing exDB "call-1" "mallory-id"
      77 (by decide)).1,
   (join_end_auth_indistinguishable_from_missing exDB "no-such-call"
      "alice-id" 77 (by decide)).1,
   (join_end_auth_indistinguishable_from_missing exDB "call-1" "mallory-id"
      77 (by decide)).2,
   (join_end_auth_indistinguishable_from_missing exDB "no-such-call"
      "alice-id" 77 (by decide)).2⟩

/-- C1 (amended): End by an authorized participant succeeds whenever a call
with the requested id exists and the requester is the caller or resolved
receiver, regardless of the current status — in particular also when the
session is already ended.  It returns ok "ended" and overwrites the status
and the end timestamp of that call with the new time.  The filter used by
`end_call` does not exclude already-ended sessions, so End is not
exactly-once. -/
theorem end_call_always_overwrites
    (db : DB) (call_id uid : String) (now : Nat) (c : CallDoc)
    (h : db.calls.find? (callFilter call_id uid) = some c) :
    (end_call db call_id uid now).1 = Except.ok "ended" ∧
    (end_call db call_id uid now).2.calls.find? (callFilter call_id uid) =
      some { c with status := "ended", ended_at := some now } := by
  have hm := updateFirst_matched_of_find?_some
    (f := fun c => { c with status := "ended", ended_at := some now }) h
  have hf := find?_updateFirst (p := callFilter call_id uid)
    (f := fun c => { c with status := "ended", ended_at := some now })
    (l := db.calls) (fun x => rfl)
  constructor
  · simp [end_call, hm]
  · simp [end_call, hm, hf, h]

/-- C1 witness: in the example database the session call-1 is already ended
with end time 50; a second End by the caller alice nevertheless succeeds and
re-stamps the end time to 99. -/
theorem end_call_always_overwrites_witness :
    exEndedCall.status = "ended" ∧ exEndedCall.ended_at = some 50 ∧
    ((end_call exDB "call-1" "alice-id" 99).1 = Except.ok "ended" ∧
     (end_call exDB "call-1" "alice-id" 99).2.calls.find?
        (callFilter "call-1" "alice-id") =
       some { exEndedCall with status := "ended", ended_at := some 99 }) :=
  ⟨by decide, by decide,
   end_call_always_overwrites exDB "call-1" "alice-id" 99 exEndedCall
     (by decide)⟩

/-- C1 counterexample: the claim states that an End request on an
already-ended session by an authorized participant fails with NotFound and
leaves the end timestamp unchanged; on the example database the second End
instead succeeds and changes the end timestamp from 50 to 99. -/
theorem end_call_second_end_succeeds_cex :
    exEndedCall.status = "ended" ∧ exEndedCall.ended_at = some 50 ∧
    end_call exDB "call-1" "alice-id" 99 =
      (Except.ok "ended",
       { exDB with calls :=
          [{ exEndedCall with status := "ended", ended_at := some 99 }] }) := by
  decide

/-- C2 (amended): the call status is not monotonic.  Join by an authorized
participant succeeds whenever a call with the requested id exists, regardless
of its current status: in particular a Join on an ended session is accepted
and sets the status back to active.  Neither `join_call` nor `end_call`
guards on the current status. -/
theorem join_call_ignores_terminal_status
    (db : DB) (call_id uid : String) (c : CallDoc)
    (h : db.calls.find? (callFilter call_id uid) = some c) :
    (join_call db call_id uid).1 = Except.ok "joined" ∧
    (join_call db call_id uid).2.calls.find? (callFilter call_id uid) =
      some { c with status := "active" } := by
  have hm := updateFirst_matched_of_find?_some
    (f := fun c => { c with status := "active" }) h
  have hf := find?_updateFirst (p := callFilter call_id uid)
    (f := fun c => { c with status := "active" })
    (l := db.calls) (fun x => rfl)
  constructor
  · simp [join_call, hm]
  · simp [join_call, hm, hf, h]

/-- C2 witness: bob, the resolved receiver, joins the already-ended session
call-1; the Join succeeds and the stored status becomes active again. -/
theorem join_call_ignores_terminal_status_witness :
    exEndedCall.status = "ended" ∧
    ((join_call exDB "call-1" "bob-id").1 = Except.ok "joined" ∧
     (join_call exDB "call-1" "bob-id").2.calls.find?
        (callFilter "call-1" "bob-id") =
       some { exEndedCall with status := "active" }) :=
  ⟨by decide,
   join_call_ignores_terminal_status exDB "call-1" "bob-id" exEndedCall
     (by decide)⟩

/-- C2 counterexample: the claim states that once a session is ended no
Join/End operation changes its status, and that a Join on an ended session is
rejected; on the example database a Join on the ended session call-1 by the
receiver bob succeeds and sets the status back to active. -/
theorem join_on_ended_session_cex :
    exEndedCall.status = "ended" ∧
    join_call exDB "call-1" "bob-id" =
      (Except.ok "joined",
       { exDB with calls := [{ exEndedCall with status := "active" }] }) := by
  decide

/-- C4: for every authenticated identity (one present in the users
collection) and every profile-creation request, Create returns a profile
owned by that identity with the freshly generated id, appends it to the
profile store (all previously created profiles remain stored), re-points the
identity's stored active-profile pointer to the new id (last-write-wins,
whatever it pointed at before), and ListForIdentity afterwards returns the
previous list extended with the new profile. -/
theorem create_voice_profile_inserts_and_repoints
    (db : DB) (uid pname : String) (vd : Option JsonObj) (newId : String)
    (now : Nat) (u : UserDoc)
    (hu : db.users.find? (fun x => x.id == uid) = some u) :
    (create_voice_profile db uid pname vd newId now).1.user_id = uid ∧
    (create_voice_profile db uid pname vd newId now).1.id = newId ∧
    (create_voice_profile db uid pname vd newId now).2.voice_profiles =
      db.voice_profiles ++ [(create_voice_profile db uid pname vd newId now).1] ∧
    (create_voice_profile db uid pname vd newId now).2.users.find?
        (fun x => x.id == uid) =
      some { u with voice_profile_id := some newId } ∧
    get_voice_profiles (create_voice_profile db uid pname vd newId now).2 uid =
      get_voice_profiles db uid ++
        [(create_voice_profile db uid pname vd newId now).1] := by
  have hf := find?_updateFirst (p := fun x : UserDoc => x.id == uid)
    (f := fun x => { x with voice_profile_id := some newId })
    (l := db.users) (fun x => rfl)
  refine ⟨rfl, rfl, rfl, ?_, ?_⟩
  · simp only [create_voice_profile]
    rw [hf, hu]
    rfl
  · simp [get_voice_profiles, create_voice_profile, List.filter_append]

/-- C4 witness: alice creates a profile on the example database; it is
appended, owned by alice, and the active-profile pointer now names it. -/
theorem create_voice_profile_inserts_and_repoints_witness :
    (create_voice_profile exDB "alice-id" "My Voice" none "prof-1" 10).1.user_id
        = "alice-id" ∧
    (create_voice_profile exDB "alice-id" "My Voice" none "prof-1" 10).1.id
        = "prof-1" ∧
    (create_voice_profile exDB "alice-id" "My Voice" none "prof-1" 10).2.voice_profiles
        = exDB.voice_profiles ++
          [(create_voice_profile exDB "alice-id" "My Voice" none "prof-1" 10).1] ∧
    (create_voice_profile exDB "alice-id" "My Voice" none "prof-1" 10).2.users.find?
        (fun x => x.id == "alice-id")
        = some { exAlice with voice_profile_id := some "prof-1" } ∧
    get_voice_profiles
        (create_voice_profile exDB "alice-id" "My Voice" none "prof-1" 10).2
        "alice-id"
        = get_voice_profiles exDB "alice-id" ++
          [(create_voice_profile exDB "alice-id" "My Voice" none "prof-1" 10).1] :=
  create_voice_profile_inserts_and_repoints exDB "alice-id" "My Voice" none
    "prof-1" 10 exAlice (by decide)

/-- C10: a profile-creation request that omits the voice-configuration
payload stores the profile with the fixed default configuration (model nova,
voice alloy, response format pcm16, and the fixed instruction string), not an
empty payload, and that profile is the one persisted last in the store. -/
theorem create_voice_profile_default_voice_data
    (db : DB) (uid pname newId : String) (now : Nat) :
    (create_voice_profile db uid pname none newId now).1.voice_data =
      [("model", JsonVal.str "nova"),
       ("voice", JsonVal.str "alloy"),
       ("response_format", JsonVal.str "pcm16"),
       ("instructions", JsonVal.str
         "You are a helpful assistant that speaks clearly and naturally.")] ∧
    (create_voice_profile db uid pname none newId now).1.voice_data ≠ [] ∧
    (create_voice_profile db uid pname none newId now).2.voice_profiles.getLast?
      = some (create_voice_profile db uid pname none newId now).1 := by
  refine ⟨rfl, by simp [create_voice_profile, resolveVoiceData, defaultVoiceData], ?_⟩
  simp [create_voice_profile, List.getLast?_concat]

/-- C3: for every clone-voice request in which some uploaded sample lacks an
audio content type, the handler raises `HTTPException(400, "Invalid file
type: <filename>")` naming the first offending sample, but the blanket
`except Exception` of the handler catches it and re-raises it as a 500 error
wrapping the same message; no external clone call is dispatched and the
database (profile store and active-profile pointer) is unchanged. -/
theorem clone_voice_invalid_sample_wrapped_500
    (db : DB) (uid vn d : String) (files : List UploadFile)
    (ev np : String) (now : Nat) (f : UploadFile)
    (h : firstInvalidFile files = some f) :
    clone_voice db true uid vn d files ev np now =
      (Except.error ⟨500, "Error cloning voice: 400: Invalid file type: "
         ++ f.filename⟩, db, false) ∧
    f ∈ files ∧ isAudioFile f = false := by
  refine ⟨?_, firstInvalidFile_mem_invalid h⟩
  simp [clone_voice, h]

/-- C3 witness: a clone request with one non-audio file among three fails
with the wrapped 500 error naming sample2.txt, dispatches no external call,
and performs zero writes. -/
theorem clone_voice_invalid_sample_wrapped_500_witness :
    clone_voice exDB true "alice-id" "MyClone" "" exFiles "ext-voice"
        "prof-9" 5 =
      (Except.error ⟨500, "Error cloning voice: 400: Invalid file type: "
         ++ exBadFile.filename⟩, exDB, false) ∧
    exBadFile ∈ exFiles ∧ isAudioFile exBadFile = false :=
  clone_voice_invalid_sample_wrapped_500 exDB "alice-id" "MyClone" "" exFiles
    "ext-voice" "prof-9" 5 exBadFile (by decide)

/-- C8: a TTS request in which stability, similarity boost, or style lies
outside [0, 1] fails pydantic validation with a 422 error before the handler
body runs: no external speech call is dispatched and no artifact is
persisted (the database is unchanged), whatever the availability flag. -/
theorem generate_tts_out_of_range_rejected
    (db : DB) (available : Bool) (r : TTSRequest) (audioB64 genId : String)
    (now : Nat)
    (h : r.stability < 0 ∨ 1 < r.stability ∨ r.similarity_boost < 0 ∨
      1 < r.similarity_boost ∨ r.style < 0 ∨ 1 < r.style) :
    generate_tts db available r audioB64 genId now =
      (Except.error ⟨422, "Input should be in the range 0.0 to 1.0"⟩, db,
       false) := by
  have hv : ¬ ttsRequestValid r := by
    rintro ⟨h1, h2, h3, h4, h5, h6⟩
    rcases h with h | h | h | h | h | h
    · exact absurd h1 (not_le.mpr h)
    · exact absurd h2 (not_le.mpr h)
    · exact absurd h3 (not_le.mpr h)
    · exact absurd h4 (not_le.mpr h)
    · exact absurd h5 (not_le.mpr h)
    · exact absurd h6 (not_le.mpr h)
  rw [generate_tts, if_neg hv]

/-- C8 witness: synthesize with stability 1.5 is rejected with the 422
validation error; no external call, no persisted artifact. -/
theorem generate_tts_out_of_range_rejected_witness :
    generate_tts exDB true exBadTTSRequest "QUJD" "gen-1" 7 =
      (Except.error ⟨422, "Input should be in the range 0.0 to 1.0"⟩, exDB,
       false) :=
  generate_tts_out_of_range_rejected exDB true exBadTTSRequest "QUJD" "gen-1"
    7 (Or.inr (Or.inl (by norm_num [exBadTTSRequest])))

end VoiceMirror
